import Mathlib

/-!
Shallow embedding of the order-lifecycle and financial-ledger logic of a
tailoring-shop workflow app (orders, payments, status transitions,
role-gated updates), together with theorems settling the specification
claims about it.

Modelling conventions:
* monetary values (JS numbers holding decimal amounts) are rationals `ℚ`;
* text and timestamp columns are `String`s (their content is opaque to the
  ledger logic); a current-time value is passed in explicitly where the
  source calls `new Date().toISOString()`;
* a user-typed numeric form field (a JS string fed to `parseFloat`) is a
  `NumInput`: empty, parses to a number, or parses to `NaN`;
* phone-number strings, whose characters matter, are lists of characters;
* fallible operations return `Option`/`Except`, and the two
  database calls inside `addPayment` get explicit success flags standing
  for the outcome of the corresponding awaited network call.
-/

namespace Rayyan

/-- Order status, from the `orders` table CHECK constraint and the
`Order['status']` union type: `pending`, `stitched` or `delivered`. -/
inductive OrderStatus where
  | pending
  | stitched
  | delivered
deriving DecidableEq, Repr

/-- Row of the `orders` table (migration `20250427194012_bronze_garden.sql`)
as used by the client `Order` type. -/
structure Order where
  id : String
  serial_number : String
  customer_name : String
  customer_phone : String
  total_amount : ℚ
  deposit_amount : ℚ
  remaining_amount : ℚ
  notes : Option String
  status : OrderStatus
  created_at : String
  completed_at : Option String
  delivered_at : Option String
  creator_id : Option String
deriving DecidableEq, Repr

/-- Row of the `payments` table: a payment record attached to an order. -/
structure PaymentRec where
  order_id : String
  amount : ℚ
  payment_date : String
  notes : Option String
deriving DecidableEq, Repr

/-- User role, from the `profiles` table CHECK constraint: `karigar`
(tailor) or `muteer` (manager). -/
inductive Role where
  | karigar
  | muteer
deriving DecidableEq, Repr

/-- A numeric form field as typed by the user: the empty string, a string
`parseFloat` turns into the rational `q`, or a string `parseFloat` turns
into `NaN`. -/
inductive NumInput where
  | empty
  | nan
  | num (q : ℚ)
deriving DecidableEq, Repr

/-- JS truthiness of the underlying string: only the empty string is falsy
(a non-empty string such as "0" is truthy). -/
def NumInput.truthy : NumInput → Bool
  | .empty => false
  | _ => true

/-- Result of `parseFloat` on the field, with `none` standing for `NaN`
(`parseFloat` of the empty string is also `NaN`). -/
def NumInput.parsed : NumInput → Option ℚ
  | .num q => some q
  | _ => none

/-- Error message returned by `validatePaymentAmount` for a missing,
non-numeric, zero or negative amount (the `NonPositiveAmount` case). -/
def msgNonPositiveAmount : String := "يرجى إدخال مبلغ صحيح أكبر من صفر"

/-- Error message returned by `validatePaymentAmount` for an amount above
the remaining balance (the `ExcessPayment` case). -/
def msgExcessPayment : String := "المبلغ المدخل أكبر من المبلغ المتبقي"

/-- Embedding of `validatePaymentAmount(amount, remaining)` from
`src/utils/helpers.ts` lines 244-249: `parseFloat` the amount, reject with
the non-positive message if it is `NaN` or `≤ 0`, reject with the excess
message if it exceeds `remaining`, otherwise accept (`null`). -/
def validatePaymentAmount (amount : NumInput) (remaining : ℚ) : Option String :=
  match amount.parsed with
  | none => some msgNonPositiveAmount
  | some v =>
    if v ≤ 0 then some msgNonPositiveAmount
    else if remaining < v then some msgExcessPayment
    else none

/-- The `phoneNumber.replace(/\D/g, '')` step: keep only digit characters. -/
def digitsOnly (s : List Char) : List Char := s.filter Char.isDigit

/-- Test of the regex `^(05)[0-9]{8}$|^(5)[0-9]{8}$` on a digits-only
string: either `05` followed by eight digits or `5` followed by eight
digits (every character of the input is already a digit). -/
def isSaudiDigits : List Char → Bool
  | '0' :: '5' :: rest => rest.length = 8
  | '5' :: rest => rest.length = 8
  | _ => false

/-- Embedding of `validateSaudiPhone(phone)` from `src/utils/helpers.ts`
lines 198-201: strip non-digits, then match the Saudi mobile pattern. -/
def validateSaudiPhone (phone : List Char) : Bool :=
  isSaudiDigits (digitsOnly phone)

/-- Test of the regex `^(05)[0-9]{8}$|^(5)[0-9]{8}$` on a raw string (as
`validateForm` in the add-order screen applies it, without stripping
non-digits first): `05` or `5` followed by exactly eight digit
characters. -/
def matchesSaudiPattern : List Char → Bool
  | '0' :: '5' :: rest => decide (rest.length = 8) && rest.all Char.isDigit
  | '5' :: rest => decide (rest.length = 8) && rest.all Char.isDigit
  | _ => false

/-- The JS test `digitsOnly.startsWith('0')`. -/
def jsStartsWithZero : List Char → Bool
  | a :: _ => a = '0'
  | [] => false

/-- The JS test `digitsOnly.startsWith('966')`. -/
def jsStartsWith966 : List Char → Bool
  | a :: b :: c :: _ => a = '9' && b = '6' && c = '6'
  | _ => false

/-- Embedding of `formatPhoneForWhatsApp(phoneNumber)` from
`src/utils/helpers.ts` lines 14-26: strip non-digits; if the result starts
with `0`, replace that leading `0` by `966`; else if it does not already
start with `966`, put `966` in front; else return it unchanged. -/
def formatPhoneForWhatsApp (phoneNumber : List Char) : List Char :=
  if jsStartsWithZero (digitsOnly phoneNumber) then
    '9' :: '6' :: '6' :: (digitsOnly phoneNumber).tail
  else if jsStartsWith966 (digitsOnly phoneNumber) then digitsOnly phoneNumber
  else '9' :: '6' :: '6' :: digitsOnly phoneNumber

/-- Input fields handed to `validateOrderFields`; the three text fields are
character lists (JS truthiness: only the empty string is falsy), the two
amount fields are numeric form fields (`depositAmount`, optional in the
source, is `empty` when absent). -/
structure OrderFieldsInput where
  serialNumber : List Char
  customerName : List Char
  customerPhone : List Char
  totalAmount : NumInput
  depositAmount : NumInput
deriving DecidableEq, Repr

/-- Error object built by `validateOrderFields`: one optional message per
key it may set (`some` models the key being present). -/
structure OrderFieldErrors where
  form : Option String
  customerPhone : Option String
  totalAmount : Option String
  depositAmount : Option String
deriving DecidableEq, Repr

/-- The empty error object. -/
def noFieldErrors : OrderFieldErrors :=
  { form := none, customerPhone := none, totalAmount := none, depositAmount := none }

/-- Message: at least one of serial number, customer name or phone must be
given. -/
def msgNeedOneField : String := "يرجى إدخال رقم الطلب أو اسم العميل أو رقم الهاتف على الأقل"

/-- Message: phone number format is invalid. -/
def msgPhoneFormat : String := "صيغة رقم الهاتف غير صحيحة"

/-- Message: total amount must be a positive number. -/
def msgTotalPositive : String := "يجب أن يكون المبلغ الإجمالي رقماً موجباً"

/-- Message: deposit must be a non-negative number. -/
def msgDepositNumber : String := "يجب أن يكون العربون رقماً موجباً"

/-- Message: deposit may not exceed the total amount. -/
def msgDepositGtTotal : String := "لا يمكن أن يكون العربون أكبر من المبلغ الإجمالي"

/-- The JS test `isNaN(x) || x <= 0` with `none` standing for `NaN`. -/
def jsNanOrNonpos : Option ℚ → Bool
  | none => true
  | some v => v ≤ 0

/-- The JS test `isNaN(x) || x < 0` with `none` standing for `NaN`. -/
def jsNanOrNeg : Option ℚ → Bool
  | none => true
  | some v => v < 0

/-- The JS comparison `a > b`, which is false whenever either side is
`NaN`. -/
def jsGT : Option ℚ → Option ℚ → Bool
  | some a, some b => b < a
  | _, _ => false

/-- First half of `validateOrderFields`: a form-level entry when serial
number, customer name and phone are all empty, then a phone entry when a
filled phone fails the Saudi pattern. -/
def formPhoneErrors (f : OrderFieldsInput) : OrderFieldErrors :=
  let e1 :=
    if f.serialNumber = [] ∧ f.customerName = [] ∧ f.customerPhone = [] then
      { noFieldErrors with form := some msgNeedOneField }
    else noFieldErrors
  if f.customerPhone ≠ [] ∧ validateSaudiPhone f.customerPhone = false then
    { e1 with customerPhone := some msgPhoneFormat }
  else e1

/-- Second half of `validateOrderFields`, entered only when `totalAmount`
is filled: a total entry when the total is `NaN` or non-positive, then,
only when `depositAmount` is also filled, a deposit entry when the deposit
is `NaN` or negative, overwritten by a deposit entry when the deposit
exceeds the total. -/
def amountFieldErrors (base : OrderFieldErrors)
    (totalAmount depositAmount : NumInput) : OrderFieldErrors :=
  if totalAmount.truthy then
    let total := totalAmount.parsed
    let e3 :=
      if jsNanOrNonpos total then { base with totalAmount := some msgTotalPositive }
      else base
    if depositAmount.truthy then
      let deposit := depositAmount.parsed
      let e4 :=
        if jsNanOrNeg deposit then { e3 with depositAmount := some msgDepositNumber }
        else e3
      if jsGT deposit total then { e4 with depositAmount := some msgDepositGtTotal }
      else e4
    else e3
  else base

/-- Embedding of `validateOrderFields(fields)` from `src/utils/helpers.ts`
lines 210-236: the error entries of the form/phone checks accumulated with
the entries of the amount checks, in source order. -/
def validateOrderFields (f : OrderFieldsInput) : OrderFieldErrors :=
  amountFieldErrors (formPhoneErrors f) f.totalAmount f.depositAmount

/-- Error object built by `validateForm` in the add-order screen: one
optional message per field key it may set. -/
structure FormErrors where
  serialNumber : Option String
  customerName : Option String
  customerPhone : Option String
  totalAmount : Option String
  depositAmount : Option String
deriving DecidableEq, Repr

/-- The empty `validateForm` error object. -/
def noFormErrors : FormErrors :=
  { serialNumber := none, customerName := none, customerPhone := none,
    totalAmount := none, depositAmount := none }

/-- Message: serial number is required. -/
def msgSerialRequired : String := "رقم الطلب مطلوب"

/-- Message: customer name is required. -/
def msgNameRequired : String := "اسم العميل مطلوب"

/-- Message: phone number is required. -/
def msgPhoneRequired : String := "رقم الهاتف مطلوب"

/-- Message: total amount is required. -/
def msgTotalRequired : String := "المبلغ الإجمالي مطلوب"

/-- First half of `validateForm` in the add-order screen: required-field
entries for empty serial number, customer name, phone and total, then a
phone-format entry for a filled phone failing the raw Saudi regex. -/
def requiredAndPhoneErrors (serialNumber customerName customerPhone : List Char)
    (totalAmount : NumInput) : FormErrors :=
  let e1 :=
    if serialNumber = [] then { noFormErrors with serialNumber := some msgSerialRequired }
    else noFormErrors
  let e2 :=
    if customerName = [] then { e1 with customerName := some msgNameRequired } else e1
  let e3 :=
    if customerPhone = [] then { e2 with customerPhone := some msgPhoneRequired } else e2
  let e4 :=
    if totalAmount.truthy = false then { e3 with totalAmount := some msgTotalRequired }
    else e3
  if customerPhone ≠ [] ∧ matchesSaudiPattern customerPhone = false then
    { e4 with customerPhone := some msgPhoneFormat }
  else e4

/-- Second half of `validateForm`: a total entry when `parseFloat` of the
total is `NaN` or non-positive; a deposit entry when the deposit field is
filled and parses to `NaN` or a negative number, overwritten by a deposit
entry when the deposit (0 when the field is empty) exceeds the total. -/
def amountFormErrors (base : FormErrors) (totalAmount depositAmount : NumInput) :
    FormErrors :=
  let total := totalAmount.parsed
  let deposit := if depositAmount.truthy then depositAmount.parsed else some 0
  let e6 :=
    if jsNanOrNonpos total then { base with totalAmount := some msgTotalPositive }
    else base
  let e7 :=
    if depositAmount.truthy ∧ jsNanOrNeg deposit = true then
      { e6 with depositAmount := some msgDepositNumber }
    else e6
  if jsGT deposit total then { e7 with depositAmount := some msgDepositGtTotal } else e7

/-- Embedding of `validateForm` from the add-order screen
(`src/unnamed/part_002` lines 200-231): the error entries of the
required-field and phone checks accumulated with the entries of the amount
checks, in source order. -/
def validateForm (serialNumber customerName customerPhone : List Char)
    (totalAmount depositAmount : NumInput) : FormErrors :=
  amountFormErrors (requiredAndPhoneErrors serialNumber customerName customerPhone totalAmount)
    totalAmount depositAmount

/-- The fields of the `Partial<Order>` value the add-order screen passes to
`createOrder`; `none` in an amount models the field being absent
(`undefined`). -/
structure OrderInput where
  serial_number : String
  customer_name : String
  customer_phone : String
  total_amount : Option ℚ
  deposit_amount : Option ℚ
  notes : Option String
  creator_id : Option String
deriving DecidableEq, Repr

/-- Embedding of `createOrder(orderData)` from the order store
(`src/unnamed/part_005` lines 90-120): compute
`remaining = (total_amount || 0) - (deposit_amount || 0)` and insert the
row with that `remaining_amount` and status `'pending'`. The inserted
`total_amount` is `orderData.total_amount` itself, so a missing total
violates the column's NOT NULL constraint and the insert fails (`none`);
a missing deposit falls back to the column default 0. `newId` and `nowTs`
stand for the database-generated id and `created_at`. -/
def createOrder (newId nowTs : String) (d : OrderInput) : Option Order :=
  let total := d.total_amount.getD 0
  let deposit := d.deposit_amount.getD 0
  let remaining := total - deposit
  match d.total_amount with
  | none => none
  | some t =>
    some
      { id := newId
        serial_number := d.serial_number
        customer_name := d.customer_name
        customer_phone := d.customer_phone
        total_amount := t
        deposit_amount := deposit
        remaining_amount := remaining
        notes := d.notes
        status := OrderStatus.pending
        created_at := nowTs
        completed_at := none
        delivered_at := none
        creator_id := d.creator_id }

/-- Embedding of `updateOrderStatus(id, status)` from the order store
(`src/unnamed/part_005` lines 122-151) acting on the targeted row: the
update object holds the requested status, plus `completed_at = now` when
the target is `'stitched'` and `delivered_at = now` when it is
`'delivered'`; every other column is left untouched by the merge. The
function performs no legality or role check of its own. -/
def updateOrderStatus (now : String) (status : OrderStatus) (o : Order) : Order :=
  let o1 := { o with status := status }
  match status with
  | OrderStatus.stitched => { o1 with completed_at := some now }
  | OrderStatus.delivered => { o1 with delivered_at := some now }
  | OrderStatus.pending => o1

/-- Persistent state: the `orders` and `payments` tables. -/
structure DB where
  orders : List Order
  payments : List PaymentRec
deriving DecidableEq, Repr

/-- Insert a payment row. -/
def dbInsertPayment (db : DB) (p : PaymentRec) : DB :=
  { db with payments := p :: db.payments }

/-- The `update({ remaining_amount: newRemaining }).eq('id', orderId)`
call: overwrite `remaining_amount` of the matching rows with the
client-computed value (an unconditional write, not a conditional
decrement). -/
def dbSetRemaining (db : DB) (orderId : String) (newRemaining : ℚ) : DB :=
  { db with
    orders := db.orders.map fun o =>
      if o.id = orderId then { o with remaining_amount := newRemaining } else o }

/-- Sum of the recorded payment amounts for one order. -/
def dbPaymentsSum (db : DB) (orderId : String) : ℚ :=
  ((db.payments.filter fun p => p.order_id = orderId).map PaymentRec.amount).sum

/-- The `remaining_amount` of the order row with the given id. -/
def dbRemainingOf (db : DB) (orderId : String) : Option ℚ :=
  (db.orders.find? fun o => o.id = orderId).map Order.remaining_amount

/-- Result of `addPayment`: the database afterwards and whether the call
reported success (`error = null`). -/
structure AddPaymentOutcome where
  db : DB
  ok : Bool
deriving DecidableEq, Repr

/-- Embedding of `addPayment(payment)` from the order store
(`src/unnamed/part_005` lines 240-281). `insertOk` and `updateOk` are the
outcomes of the two awaited database calls. First the payment row is
inserted; if that call fails the whole operation aborts with an error and
no effect. On insert success, if a `currentOrder` is loaded in the store,
`newRemaining = currentOrder.remaining_amount - amount` is computed from
that snapshot and written to the order row; the error of this second call
is never inspected, so the operation reports success whether or not the
write lands. With no `currentOrder` loaded, the remaining amount is not
updated at all. -/
def addPayment (insertOk updateOk : Bool) (db : DB) (currentOrder : Option Order)
    (p : PaymentRec) : AddPaymentOutcome :=
  if insertOk then
    let db1 := dbInsertPayment db p
    match currentOrder with
    | some co =>
      let newRemaining := co.remaining_amount - p.amount
      let db2 := if updateOk then dbSetRemaining db1 co.id newRemaining else db1
      { db := db2, ok := true }
    | none => { db := db1, ok := true }
  else { db := db, ok := false }

/-- Embedding of `handleAddPayment` from the order-details screen
(`src/app/_layout.tsx` lines 152-181): `parseFloat` the typed amount and
reject it client-side when it is `NaN`, non-positive, or greater than the
`remaining_amount` of the `currentOrder` snapshot; otherwise call
`addPayment` with that snapshot as the store's current order. -/
def handleAddPayment (insertOk updateOk : Bool) (db : DB) (snapshot : Order)
    (amountField : NumInput) (dateStr : String) (note : Option String) : AddPaymentOutcome :=
  match amountField.parsed with
  | none => { db := db, ok := false }
  | some amount =>
    if amount ≤ 0 then { db := db, ok := false }
    else if snapshot.remaining_amount < amount then { db := db, ok := false }
    else
      addPayment insertOk updateOk db (some snapshot)
        { order_id := snapshot.id, amount := amount, payment_date := dateStr, notes := note }

/-- One validated payment application against an up-to-date order snapshot:
the composition of `handleAddPayment`'s client-side checks (amount positive
and at most `remaining_amount`) with `addPayment`'s decrement of the
current order's `remaining_amount`, in the sequential case where the
store's `currentOrder` is the order's current row and both database calls
succeed. Rejected payments yield `none`. -/
def applyValidatedPayment (o : Order) (amount : ℚ) : Option Order :=
  if amount ≤ 0 then none
  else if o.remaining_amount < amount then none
  else some { o with remaining_amount := o.remaining_amount - amount }

/-- A sequence of validated payment applications, aborting at the first
rejected payment. -/
def applyValidatedPayments (o : Order) : List ℚ → Option Order
  | [] => some o
  | a :: rest =>
    match applyValidatedPayment o a with
    | none => none
    | some o2 => applyValidatedPayments o2 rest

/-- USING clause of the policy "Muteer can update orders": the caller's
profile role is `muteer` (its WITH CHECK defaults to the same
expression). -/
def muteerUpdateUsing : Role → Bool
  | Role.muteer => true
  | Role.karigar => false

/-- USING clause of the policy "Karigar can update order status to
stitched": the caller's profile role is `karigar`. -/
def karigarUpdateUsing : Role → Bool
  | Role.karigar => true
  | Role.muteer => false

/-- WITH CHECK clause of the policy "Karigar can update order status to
stitched": the new row's status is `'stitched'`. -/
def karigarUpdateCheck (newRow : Order) : Bool :=
  newRow.status = OrderStatus.stitched

/-- Row-level-security decision for an UPDATE on `orders`
(migration `20250427194012_bronze_garden.sql` lines 109-135): with the two
permissive update policies combined, the existing row must satisfy some
policy's USING clause and the new row some policy's WITH CHECK clause
(neither policy's USING mentions the row itself, only the caller's
role). -/
def orderUpdateAllowed (r : Role) (_oldRow newRow : Order) : Bool :=
  (muteerUpdateUsing r || karigarUpdateUsing r) &&
    (muteerUpdateUsing r || karigarUpdateCheck newRow)

/-- Denial of an order UPDATE by row-level security. -/
inductive UpdateDenied where
  | forbidden
deriving DecidableEq, Repr

/-- An `updateOrderStatus` request as the database sees it: the updated row
`updateOrderStatus now target o` is accepted when the caller's role passes
the UPDATE policies for it, and rejected as forbidden otherwise. -/
def attemptStatusUpdate (r : Role) (now : String) (target : OrderStatus) (o : Order) :
    Except UpdateDenied Order :=
  let newRow := updateOrderStatus now target o
  if orderUpdateAllowed r o newRow then Except.ok newRow
  else Except.error UpdateDenied.forbidden

/-- Visibility condition of the "mark as stitched" button on the
order-details screen (`src/app/_layout.tsx` line 410):
`isMuteer() && currentOrder.status === 'pending'`. -/
def showMarkStitchedAction (isMut : Bool) (o : Order) : Bool :=
  isMut && o.status = OrderStatus.pending

/-- Visibility condition of the "mark as delivered" button on the
order-details screen (`src/app/_layout.tsx` line 419):
`isMuteer() && currentOrder.status === 'stitched'`. -/
def showMarkDeliveredAction (isMut : Bool) (o : Order) : Bool :=
  isMut && o.status = OrderStatus.stitched

/-- Visibility condition of the search tab in the tab bar
(`src/app/(app)/(tabs)/_layout.tsx` line 43): the tab is rendered exactly
for the karigar role (`isKarigar()`). -/
def showSearchTab (isKar : Bool) : Bool :=
  isKar

/-- Visibility condition of the mark-as-stitched button on the search
screen (`src/app/(app)/(tabs)/search.tsx` lines 111-118): rendered, with
no role gate of its own, whenever the found order is pending
(`currentOrder.status === 'pending'`). -/
def showSearchMarkStitchedAction (o : Order) : Bool :=
  o.status = OrderStatus.pending

/-- Concrete order-creation input: total 500, deposit 100 (the worked
scenario of the testable properties). -/
def sampleInput : OrderInput :=
  { serial_number := "1001"
    customer_name := "Ali"
    customer_phone := "0501234567"
    total_amount := some 500
    deposit_amount := some 100
    notes := none
    creator_id := some "u1" }

/-- The order row `createOrder` produces from `sampleInput`:
remaining 400, status pending. -/
def sampleOrder : Order :=
  { id := "o1"
    serial_number := "1001"
    customer_name := "Ali"
    customer_phone := "0501234567"
    total_amount := 500
    deposit_amount := 100
    remaining_amount := 400
    notes := none
    status := OrderStatus.pending
    created_at := "t0"
    completed_at := none
    delivered_at := none
    creator_id := some "u1" }

/-- `sampleOrder` after both sample payments (300 then 100) settled it. -/
def paidOrder : Order :=
  { sampleOrder with remaining_amount := 0 }

/-- `sampleOrder` after a transition to stitched at time t1. -/
def stitchedOrder : Order :=
  { sampleOrder with status := OrderStatus.stitched, completed_at := some "t1" }

/-- A fully processed order sitting in the terminal `delivered` status. -/
def deliveredOrder : Order :=
  { sampleOrder with
    remaining_amount := 0
    status := OrderStatus.delivered
    completed_at := some "t1"
    delivered_at := some "t2" }

/-- Concrete order with total 500, deposit 200, remaining 300 (the worked
concurrency scenario of the spec). -/
def payOrder : Order :=
  { id := "o2"
    serial_number := "1002"
    customer_name := "Saad"
    customer_phone := "0500000000"
    total_amount := 500
    deposit_amount := 200
    remaining_amount := 300
    notes := none
    status := OrderStatus.pending
    created_at := "t0"
    completed_at := none
    delivered_at := none
    creator_id := some "u1" }

/-- Database holding just `payOrder` and no payments yet. -/
def payDB : DB :=
  { orders := [payOrder], payments := [] }

/-- Run of `addPayment` in which the payment insert succeeds and the
subsequent `remaining_amount` update call fails. -/
def lostUpdateRun : AddPaymentOutcome :=
  addPayment true false payDB (some payOrder)
    { order_id := "o2", amount := 50, payment_date := "d1", notes := none }

/-- First of two payment submissions of 250, from a device whose
`currentOrder` snapshot shows remaining 300. -/
def racePayment1 : AddPaymentOutcome :=
  handleAddPayment true true payDB payOrder (NumInput.num 250) "d1" none

/-- Second payment submission of 250, from a second device whose
`currentOrder` snapshot is the same stale row with remaining 300. -/
def racePayment2 : AddPaymentOutcome :=
  handleAddPayment true true racePayment1.db payOrder (NumInput.num 250) "d2" none

/-- Form input with an invalid total (-5) and a deposit (3) exceeding it. -/
def badFields : OrderFieldsInput :=
  { serialNumber := ['1']
    customerName := []
    customerPhone := []
    totalAmount := NumInput.num (-5)
    depositAmount := NumInput.num 3 }

/-- Stripping non-digits leaves only digit characters. -/
theorem digitsOnly_all_digits (s : List Char) : (digitsOnly s).all Char.isDigit = true := by
  rw [List.all_eq_true]
  intro c hc
  exact (List.mem_filter.mp hc).2

/-- Stripping non-digits from an all-digit string changes nothing. -/
theorem digitsOnly_of_all_digits (s : List Char) (h : s.all Char.isDigit = true) :
    digitsOnly s = s :=
  List.filter_eq_self.mpr (List.all_eq_true.mp h)

/-- The tail of an all-digit string is all digits. -/
theorem all_digits_tail (l : List Char) (h : l.all Char.isDigit = true) :
    l.tail.all Char.isDigit = true := by
  cases l with
  | nil => rfl
  | cons a l =>
    simp only [List.all_cons, Bool.and_eq_true] at h
    exact h.2

/-- Characterization of the `startsWith('966')` test. -/
theorem jsStartsWith966_iff (l : List Char) :
    jsStartsWith966 l = true ↔ ∃ t, l = '9' :: '6' :: '6' :: t := by
  rcases l with _ | ⟨a, _ | ⟨b, _ | ⟨c, t⟩⟩⟩ <;>
    simp [jsStartsWith966, List.cons_eq_cons, and_assoc]

/-- Every output of the phone formatter is an all-digit string. -/
theorem formatPhone_all_digits (s : List Char) :
    (formatPhoneForWhatsApp s).all Char.isDigit = true := by
  have hd := digitsOnly_all_digits s
  unfold formatPhoneForWhatsApp
  split_ifs with h1 h2
  · simp only [List.all_cons, Bool.and_eq_true_iff]
    exact ⟨rfl, rfl, rfl, all_digits_tail _ hd⟩
  · exact hd
  · simp only [List.all_cons, Bool.and_eq_true_iff]
    exact ⟨rfl, rfl, rfl, hd⟩

/-- Every output of the phone formatter starts with `966`. -/
theorem formatPhone_starts_966 (s : List Char) :
    ∃ t, formatPhoneForWhatsApp s = '9' :: '6' :: '6' :: t := by
  unfold formatPhoneForWhatsApp
  split_ifs with h1 h2
  · exact ⟨(digitsOnly s).tail, rfl⟩
  · exact (jsStartsWith966_iff (digitsOnly s)).mp h2
  · exact ⟨digitsOnly s, rfl⟩

/-- The phone formatter fixes every all-digit string that already starts
with `966`. -/
theorem formatPhone_fixes_966 (l : List Char) (hall : l.all Char.isDigit = true)
    (h9 : jsStartsWith966 l = true) : formatPhoneForWhatsApp l = l := by
  obtain ⟨t, rfl⟩ := (jsStartsWith966_iff l).mp h9
  unfold formatPhoneForWhatsApp
  rw [digitsOnly_of_all_digits _ hall]
  simp [jsStartsWithZero, jsStartsWith966]

/-- C10: for every input string, `formatPhoneForWhatsApp` returns a string
of digit characters only that starts with `966`, and the function is
idempotent: applied to its own output it returns that output unchanged. -/
theorem formatPhoneForWhatsApp_digits_966_idem (s : List Char) :
    (formatPhoneForWhatsApp s).all Char.isDigit = true ∧
      (∃ t, formatPhoneForWhatsApp s = '9' :: '6' :: '6' :: t) ∧
      formatPhoneForWhatsApp (formatPhoneForWhatsApp s) = formatPhoneForWhatsApp s := by
  refine ⟨formatPhone_all_digits s, formatPhone_starts_966 s, ?_⟩
  obtain ⟨t, ht⟩ := formatPhone_starts_966 s
  have h9 : jsStartsWith966 (formatPhoneForWhatsApp s) = true := by
    rw [ht]
    simp [jsStartsWith966]
  exact formatPhone_fixes_966 _ (formatPhone_all_digits s) h9

/-- C8: a transition to stitched sets `completed_at` to the current time
and a transition to delivered sets `delivered_at` to the current time,
and each leaves every other order field (id, serial number, customer name
and phone, total, deposit and remaining amounts, notes, created_at,
creator reference, and the other timestamp) unchanged; along the legal
chain pending → stitched → delivered each timestamp is set exactly once:
the stitched timestamp survives the later delivery transition. -/
theorem updateOrderStatus_frame (o : Order) (t1 t2 : String) :
    ((updateOrderStatus t1 OrderStatus.stitched o).status = OrderStatus.stitched ∧
      (updateOrderStatus t1 OrderStatus.stitched o).completed_at = some t1 ∧
      (updateOrderStatus t1 OrderStatus.stitched o).delivered_at = o.delivered_at ∧
      (updateOrderStatus t1 OrderStatus.stitched o).id = o.id ∧
      (updateOrderStatus t1 OrderStatus.stitched o).serial_number = o.serial_number ∧
      (updateOrderStatus t1 OrderStatus.stitched o).customer_name = o.customer_name ∧
      (updateOrderStatus t1 OrderStatus.stitched o).customer_phone = o.customer_phone ∧
      (updateOrderStatus t1 OrderStatus.stitched o).total_amount = o.total_amount ∧
      (updateOrderStatus t1 OrderStatus.stitched o).deposit_amount = o.deposit_amount ∧
      (updateOrderStatus t1 OrderStatus.stitched o).remaining_amount = o.remaining_amount ∧
      (updateOrderStatus t1 OrderStatus.stitched o).notes = o.notes ∧
      (updateOrderStatus t1 OrderStatus.stitched o).created_at = o.created_at ∧
      (updateOrderStatus t1 OrderStatus.stitched o).creator_id = o.creator_id) ∧
    ((updateOrderStatus t2 OrderStatus.delivered o).status = OrderStatus.delivered ∧
      (updateOrderStatus t2 OrderStatus.delivered o).delivered_at = some t2 ∧
      (updateOrderStatus t2 OrderStatus.delivered o).completed_at = o.completed_at ∧
      (updateOrderStatus t2 OrderStatus.delivered o).id = o.id ∧
      (updateOrderStatus t2 OrderStatus.delivered o).serial_number = o.serial_number ∧
      (updateOrderStatus t2 OrderStatus.delivered o).customer_name = o.customer_name ∧
      (updateOrderStatus t2 OrderStatus.delivered o).customer_phone = o.customer_phone ∧
      (updateOrderStatus t2 OrderStatus.delivered o).total_amount = o.total_amount ∧
      (updateOrderStatus t2 OrderStatus.delivered o).deposit_amount = o.deposit_amount ∧
      (updateOrderStatus t2 OrderStatus.delivered o).remaining_amount = o.remaining_amount ∧
      (updateOrderStatus t2 OrderStatus.delivered o).notes = o.notes ∧
      (updateOrderStatus t2 OrderStatus.delivered o).created_at = o.created_at ∧
      (updateOrderStatus t2 OrderStatus.delivered o).creator_id = o.creator_id) ∧
    ((updateOrderStatus t2 OrderStatus.delivered
        (updateOrderStatus t1 OrderStatus.stitched o)).completed_at = some t1 ∧
      (updateOrderStatus t2 OrderStatus.delivered
        (updateOrderStatus t1 OrderStatus.stitched o)).delivered_at = some t2) := by
  exact ⟨⟨rfl, rfl, rfl, rfl, rfl, rfl, rfl, rfl, rfl, rfl, rfl, rfl, rfl⟩,
    ⟨rfl, rfl, rfl, rfl, rfl, rfl, rfl, rfl, rfl, rfl, rfl, rfl, rfl⟩,
    ⟨rfl, rfl⟩⟩

/-- C4 counterexample: a status-change request from delivered back to
stitched is not rejected: `updateOrderStatus` sets the delivered order's
status to stitched and so changes the order, where the claim demands the
request fail with the order left unchanged. -/
theorem updateOrderStatus_delivered_to_stitched_succeeds :
    deliveredOrder.status = OrderStatus.delivered ∧
      (updateOrderStatus "t3" OrderStatus.stitched deliveredOrder).status =
        OrderStatus.stitched ∧
      updateOrderStatus "t3" OrderStatus.stitched deliveredOrder ≠ deliveredOrder := by
  refine ⟨rfl, rfl, ?_⟩
  decide

/-- C4 (amended): no transition-legality check and no IllegalTransition
failure exist anywhere. `updateOrderStatus` itself writes whatever status
is requested, for every current status, and whether the write lands is
decided only by role, never by the edge: a muteer request is accepted for
every current status and every target — delivered → stitched,
pending → delivered, any → pending and no-op requests included — and a
karigar request is accepted exactly when the requested target is stitched
(even on a delivered order), and otherwise denied as a role violation,
not as an illegal transition. Lifecycle legality is otherwise only a
matter of which actions the UI renders: on the order-details screen the
mark-stitched action requires the muteer role and a pending order and the
mark-delivered action the muteer role and a stitched order, while the
search tab — rendered only for the karigar role — offers a mark-stitched
action, with no role gate of its own, on any pending order. -/
theorem updateOrderStatus_applies_any_target :
    (∀ (now : String) (target : OrderStatus) (o : Order),
        (updateOrderStatus now target o).status = target) ∧
      (∀ (now : String) (target : OrderStatus) (o : Order),
        attemptStatusUpdate Role.muteer now target o =
          Except.ok (updateOrderStatus now target o)) ∧
      (∀ (now : String) (o : Order),
        attemptStatusUpdate Role.karigar now OrderStatus.stitched o =
          Except.ok (updateOrderStatus now OrderStatus.stitched o)) ∧
      (∀ (now : String) (target : OrderStatus) (o : Order),
        target ≠ OrderStatus.stitched →
          attemptStatusUpdate Role.karigar now target o =
            Except.error UpdateDenied.forbidden) ∧
      (∀ (m : Bool) (o : Order),
        showMarkStitchedAction m o = true → m = true ∧ o.status = OrderStatus.pending) ∧
      (∀ (m : Bool) (o : Order),
        showMarkDeliveredAction m o = true → m = true ∧ o.status = OrderStatus.stitched) ∧
      (∀ (k : Bool) (o : Order),
        (showSearchTab k && showSearchMarkStitchedAction o) = true →
          k = true ∧ o.status = OrderStatus.pending) := by
  refine ⟨?_, ?_, ?_, ?_, ?_, ?_, ?_⟩
  · intro now target o
    cases target <;> rfl
  · intro now target o
    rfl
  · intro now o
    rfl
  · intro now target o h
    cases target with
    | pending => rfl
    | stitched => exact absurd rfl h
    | delivered => rfl
  · intro m o h
    simp only [showMarkStitchedAction, Bool.and_eq_true_iff, decide_eq_true_eq] at h
    exact h
  · intro m o h
    simp only [showMarkDeliveredAction, Bool.and_eq_true_iff, decide_eq_true_eq] at h
    exact h
  · intro k o h
    simp only [showSearchTab, showSearchMarkStitchedAction, Bool.and_eq_true_iff,
      decide_eq_true_eq] at h
    exact h

/-- Concrete instantiation of the amended C4 theorem: backward and no-op
requests just set the requested status; a muteer delivered → stitched
request and a karigar delivered → stitched request are both accepted; a
karigar delivered-target request is denied; and the search-tab
mark-stitched action implies a karigar viewer and a pending order. -/
theorem updateOrderStatus_applies_any_target_w :
    (updateOrderStatus "t3" OrderStatus.pending deliveredOrder).status =
        OrderStatus.pending ∧
      (updateOrderStatus "t3" OrderStatus.delivered deliveredOrder).status =
        OrderStatus.delivered ∧
      attemptStatusUpdate Role.muteer "t3" OrderStatus.stitched deliveredOrder =
        Except.ok (updateOrderStatus "t3" OrderStatus.stitched deliveredOrder) ∧
      attemptStatusUpdate Role.karigar "t3" OrderStatus.stitched deliveredOrder =
        Except.ok (updateOrderStatus "t3" OrderStatus.stitched deliveredOrder) ∧
      attemptStatusUpdate Role.karigar "t3" OrderStatus.delivered sampleOrder =
        Except.error UpdateDenied.forbidden ∧
      (showSearchTab true && showSearchMarkStitchedAction sampleOrder) = true ∧
      sampleOrder.status = OrderStatus.pending :=
  ⟨updateOrderStatus_applies_any_target.1 "t3" OrderStatus.pending deliveredOrder,
    updateOrderStatus_applies_any_target.1 "t3" OrderStatus.delivered deliveredOrder,
    updateOrderStatus_applies_any_target.2.1 "t3" OrderStatus.stitched deliveredOrder,
    updateOrderStatus_applies_any_target.2.2.1 "t3" deliveredOrder,
    updateOrderStatus_applies_any_target.2.2.2.1 "t3" OrderStatus.delivered sampleOrder
      (by decide),
    by decide,
    (updateOrderStatus_applies_any_target.2.2.2.2.2.2 true sampleOrder (by decide)).2⟩

/-- C5: under the row-level-security update policies, a karigar (tailor)
request taking a pending order to stitched is accepted, a karigar request
taking a stitched order to delivered is rejected as forbidden, and a
muteer (manager) may perform both edges. -/
theorem role_gated_transitions (o1 o2 : Order) (n1 n2 : String)
    (_h1 : o1.status = OrderStatus.pending) (_h2 : o2.status = OrderStatus.stitched) :
    attemptStatusUpdate Role.karigar n1 OrderStatus.stitched o1 =
        Except.ok (updateOrderStatus n1 OrderStatus.stitched o1) ∧
      (updateOrderStatus n1 OrderStatus.stitched o1).status = OrderStatus.stitched ∧
      attemptStatusUpdate Role.karigar n2 OrderStatus.delivered o2 =
        Except.error UpdateDenied.forbidden ∧
      attemptStatusUpdate Role.muteer n1 OrderStatus.stitched o1 =
        Except.ok (updateOrderStatus n1 OrderStatus.stitched o1) ∧
      attemptStatusUpdate Role.muteer n2 OrderStatus.delivered o2 =
        Except.ok (updateOrderStatus n2 OrderStatus.delivered o2) :=
  ⟨rfl, rfl, rfl, rfl, rfl⟩

/-- C2: `validatePaymentAmount` fails with the non-positive-amount message
exactly when the typed amount is not a number or parses to a value ≤ 0,
fails with the excess-payment message exactly when the amount parses to a
value strictly greater than the remaining balance, and succeeds exactly
when the amount parses to a value with 0 < value ≤ remaining; in
particular an amount equal to the remaining balance is accepted. -/
theorem validatePaymentAmount_cases (a : NumInput) (r : ℚ) :
    (validatePaymentAmount a r = some msgNonPositiveAmount ↔
      a.parsed = none ∨ ∃ v, a.parsed = some v ∧ v ≤ 0) ∧
    (validatePaymentAmount a r = some msgExcessPayment ↔
      ∃ v, a.parsed = some v ∧ 0 < v ∧ r < v) ∧
    (validatePaymentAmount a r = none ↔
      ∃ v, a.parsed = some v ∧ 0 < v ∧ v ≤ r) ∧
    (0 < r → validatePaymentAmount (NumInput.num r) r = none) := by
  have hne : msgExcessPayment ≠ msgNonPositiveAmount := by decide
  have hne' : msgNonPositiveAmount ≠ msgExcessPayment := by decide
  have h4 : 0 < r → validatePaymentAmount (NumInput.num r) r = none := by
    intro hr
    simp [validatePaymentAmount, NumInput.parsed, not_le.mpr hr, lt_irrefl r]
  rcases a with _ | _ | q
  · refine ⟨?_, ?_, ?_, h4⟩ <;> simp [validatePaymentAmount, NumInput.parsed, hne, hne']
  · refine ⟨?_, ?_, ?_, h4⟩ <;> simp [validatePaymentAmount, NumInput.parsed, hne, hne']
  · by_cases h1 : q ≤ 0
    · refine ⟨?_, ?_, ?_, h4⟩ <;>
        simp [validatePaymentAmount, NumInput.parsed, h1, hne, hne', not_lt.mpr h1]
    · by_cases h2 : r < q
      · refine ⟨?_, ?_, ?_, h4⟩ <;>
          simp [validatePaymentAmount, NumInput.parsed, h1, h2, hne, hne',
            not_le.mp h1, not_le.mpr h2]
      · refine ⟨?_, ?_, ?_, h4⟩ <;>
          simp [validatePaymentAmount, NumInput.parsed, h1, h2, hne, hne',
            not_le.mp h1, not_lt.mp h2]

/-- Concrete instantiation of the C2 theorem: a payment equal to the full
remaining balance of 100 is accepted. -/
theorem validatePaymentAmount_cases_w :
    (0 : ℚ) < 100 ∧ validatePaymentAmount (NumInput.num 100) 100 = none :=
  ⟨by norm_num, (validatePaymentAmount_cases (NumInput.num 100) 100).2.2.2 (by norm_num)⟩

/-- What a successful `createOrder` guarantees about the inserted row: the
remaining amount is total minus deposit, the status is pending, and the
stored amounts are the input amounts (with the deposit defaulting to 0). -/
theorem createOrder_spec (newId nowTs : String) (d : OrderInput) (o : Order)
    (h : createOrder newId nowTs d = some o) :
    o.remaining_amount = o.total_amount - o.deposit_amount ∧
      o.status = OrderStatus.pending ∧
      o.total_amount = d.total_amount.getD 0 ∧
      o.deposit_amount = d.deposit_amount.getD 0 := by
  cases hd : d.total_amount with
  | none => simp [createOrder, hd] at h
  | some t =>
    simp only [createOrder, hd, Option.some_inj] at h
    subst h
    refine ⟨?_, rfl, ?_, rfl⟩
    · simp [hd]
    · simp [hd]

/-- Creating the sample order: total 500, deposit 100 yield the concrete
row `sampleOrder` with remaining 400. -/
theorem createOrder_sample : createOrder "o1" "t0" sampleInput = some sampleOrder := by
  norm_num [createOrder, sampleInput, sampleOrder]

/-- Running the worked payment sequence 300 then 100 on the sample order
settles it. -/
theorem applyValidatedPayments_sample :
    applyValidatedPayments sampleOrder [300, 100] = some paidOrder := by
  norm_num [applyValidatedPayments, applyValidatedPayment, sampleOrder, paidOrder]

/-- C3: every valid order creation with a positive total and a deposit
between 0 and the total produces an order whose remaining amount is total
minus deposit and whose status is pending. -/
theorem createOrder_valid_remaining_status (newId nowTs : String) (d : OrderInput)
    (t dep : ℚ) (ht : d.total_amount = some t) (hdep : d.deposit_amount = some dep)
    (_htpos : 0 < t) (_hdep0 : 0 ≤ dep) (_hdept : dep ≤ t) (o : Order)
    (h : createOrder newId nowTs d = some o) :
    o.remaining_amount = t - dep ∧ o.status = OrderStatus.pending := by
  obtain ⟨h1, h2, h3, h4⟩ := createOrder_spec newId nowTs d o h
  refine ⟨?_, h2⟩
  rw [h1, h3, h4, ht, hdep]
  simp

/-- Concrete instantiation of the C3 theorem: total 500 and deposit 100
give remaining 400 and pending status. -/
theorem createOrder_valid_remaining_status_w :
    createOrder "o1" "t0" sampleInput = some sampleOrder ∧
      sampleOrder.remaining_amount = 500 - 100 ∧
      sampleOrder.status = OrderStatus.pending :=
  ⟨createOrder_sample,
    createOrder_valid_remaining_status "o1" "t0" sampleInput 500 100 rfl rfl
      (by norm_num) (by norm_num) (by norm_num) sampleOrder createOrder_sample⟩

/-- What one accepted validated payment does: it decrements the remaining
amount by exactly the payment amount, leaves it non-negative, and keeps
the total and deposit unchanged. -/
theorem applyValidatedPayment_spec (o o2 : Order) (a : ℚ)
    (h : applyValidatedPayment o a = some o2) :
    o2.remaining_amount = o.remaining_amount - a ∧ 0 ≤ o2.remaining_amount ∧
      o2.total_amount = o.total_amount ∧ o2.deposit_amount = o.deposit_amount := by
  by_cases h1 : a ≤ 0
  · simp [applyValidatedPayment, h1] at h
  · by_cases h2 : o.remaining_amount < a
    · simp [applyValidatedPayment, h1, h2] at h
    · simp only [applyValidatedPayment, if_neg h1, if_neg h2, Option.some_inj] at h
      subst h
      refine ⟨rfl, ?_, rfl, rfl⟩
      have h2' := not_lt.mp h2
      show 0 ≤ o.remaining_amount - a
      linarith

/-- A successful run over a concatenation restricts to a successful run
over the left part. -/
theorem applyValidatedPayments_append_left (o : Order) (q r : List ℚ) (ofin : Order)
    (h : applyValidatedPayments o (q ++ r) = some ofin) :
    ∃ oq, applyValidatedPayments o q = some oq := by
  revert h
  induction q generalizing o with
  | nil => exact fun _ => ⟨o, rfl⟩
  | cons a q ih =>
    intro h
    rw [List.cons_append] at h
    cases hs : applyValidatedPayment o a with
    | none => simp [applyValidatedPayments, hs] at h
    | some o2 =>
      simp only [applyValidatedPayments, hs] at h
      obtain ⟨oq, hoq⟩ := ih o2 h
      refine ⟨oq, ?_⟩
      simp only [applyValidatedPayments, hs]
      exact hoq

/-- Invariant of a successful run of validated payments: the remaining
amount drops by exactly the sum of the amounts, total and deposit are
untouched, and after at least one payment the remaining amount is
non-negative. -/
theorem applyValidatedPayments_spec (o : Order) (q : List ℚ) (oq : Order)
    (h : applyValidatedPayments o q = some oq) :
    oq.remaining_amount = o.remaining_amount - q.sum ∧
      oq.total_amount = o.total_amount ∧ oq.deposit_amount = o.deposit_amount ∧
      (q ≠ [] → 0 ≤ oq.remaining_amount) := by
  revert h
  induction q generalizing o with
  | nil =>
    intro h
    simp only [applyValidatedPayments, Option.some_inj] at h
    subst h
    simp
  | cons a q ih =>
    intro h
    cases hs : applyValidatedPayment o a with
    | none => simp [applyValidatedPayments, hs] at h
    | some o2 =>
      simp only [applyValidatedPayments, hs] at h
      obtain ⟨hrem2, hnn2, htot2, hdep2⟩ := applyValidatedPayment_spec o o2 a hs
      obtain ⟨ih1, ih2, ih3, ih4⟩ := ih o2 h
      refine ⟨?_, by rw [ih2, htot2], by rw [ih3, hdep2], ?_⟩
      · rw [ih1, hrem2, List.sum_cons]
        ring
      · intro _
        by_cases hq : q = []
        · subst hq
          simp only [applyValidatedPayments, Option.some_inj] at h
          subst h
          exact hnn2
        · exact ih4 hq

/-- C1: for an order produced by `createOrder` and a sequence of validated
payments all of which are applied, after every payment application (after
every initial segment of the sequence) the remaining amount equals
`total_amount - deposit_amount` minus the sum of the amounts applied so
far, and once at least one payment has been applied it is non-negative. -/
theorem ledger_invariant (newId nowTs : String) (d : OrderInput) (o : Order)
    (hcreate : createOrder newId nowTs d = some o)
    (ps : List ℚ) (ofin : Order)
    (hrun : applyValidatedPayments o ps = some ofin)
    (q r : List ℚ) (hsplit : q ++ r = ps) :
    ∃ oq, applyValidatedPayments o q = some oq ∧
      oq.remaining_amount = o.total_amount - o.deposit_amount - q.sum ∧
      (q ≠ [] → 0 ≤ oq.remaining_amount) := by
  subst hsplit
  obtain ⟨oq, hq⟩ := applyValidatedPayments_append_left o q r ofin hrun
  obtain ⟨h1, _, _, h4⟩ := applyValidatedPayments_spec o q oq hq
  obtain ⟨hc1, _, _, _⟩ := createOrder_spec newId nowTs d o hcreate
  exact ⟨oq, hq, by rw [h1, hc1], h4⟩

/-- Concrete instantiation of the C1 theorem: total 500, deposit 100,
payments 300 then 100; after the first payment the remaining amount is
500 - 100 - 300 = 100 and non-negative. -/
theorem ledger_invariant_w :
    createOrder "o1" "t0" sampleInput = some sampleOrder ∧
      ∃ oq, applyValidatedPayments sampleOrder [300] = some oq ∧
        oq.remaining_amount =
          sampleOrder.total_amount - sampleOrder.deposit_amount - List.sum [300] ∧
        (([300] : List ℚ) ≠ [] → 0 ≤ oq.remaining_amount) :=
  ⟨createOrder_sample,
    ledger_invariant "o1" "t0" sampleInput sampleOrder createOrder_sample [300, 100]
      paidOrder applyValidatedPayments_sample [300] [100] rfl⟩

/-- C6: `addPayment` is not atomic. With the order row (remaining 300)
loaded as the current order, a payment of 50 whose record insert succeeds
but whose follow-up remaining-amount update fails is still reported as a
success, leaving a state in which the payment record exists while the
order's remaining amount is not decremented by the payment — exactly the
state the claim says cannot be observed. -/
theorem addPayment_not_atomic :
    lostUpdateRun.ok = true ∧
      lostUpdateRun.db.payments.length = 1 ∧
      dbPaymentsSum lostUpdateRun.db "o2" = 50 ∧
      dbRemainingOf lostUpdateRun.db "o2" = some 300 ∧
      dbRemainingOf lostUpdateRun.db "o2" ≠ some (payOrder.remaining_amount - 50) := by
  refine ⟨rfl, rfl, ?_, ?_, ?_⟩ <;>
    norm_num [dbPaymentsSum, dbRemainingOf, lostUpdateRun, addPayment, dbInsertPayment,
      payDB, payOrder]

/-- C9: the remaining-balance decrement is a read-modify-write from the
client snapshot, not a conditional decrement-if-sufficient at the storage
layer: two payment submissions of 250, each validated against the same
stale snapshot showing remaining 300, both succeed, leave two payment
records totalling 500, and overwrite the stored remaining amount with 50,
which no longer equals total − deposit − Σ payments (that would be −200) —
where the claim demands that exactly one of them succeed. -/
theorem concurrent_payments_overdraw :
    racePayment1.ok = true ∧ racePayment2.ok = true ∧
      dbPaymentsSum racePayment2.db "o2" = 500 ∧
      dbRemainingOf racePayment2.db "o2" = some 50 ∧
      dbRemainingOf racePayment2.db "o2" ≠
        some (payOrder.total_amount - payOrder.deposit_amount -
          dbPaymentsSum racePayment2.db "o2") := by
  refine ⟨?_, ?_, ?_, ?_, ?_⟩ <;>
    norm_num [racePayment1, racePayment2, handleAddPayment, addPayment, NumInput.parsed,
      dbPaymentsSum, dbRemainingOf, dbInsertPayment, dbSetRemaining, payDB, payOrder]

/-- When the total parses to a non-positive value and the filled deposit
parses to a negative value or one exceeding the total, the amount phase of
`validateOrderFields` sets entries for both amount fields, whatever the
earlier checks produced. -/
theorem amountFieldErrors_both (base : OrderFieldErrors) (t dep : ℚ)
    (htbad : t ≤ 0) (hdbad : dep < 0 ∨ t < dep) :
    (amountFieldErrors base (NumInput.num t) (NumInput.num dep)).totalAmount =
        some msgTotalPositive ∧
      (amountFieldErrors base (NumInput.num t)
          (NumInput.num dep)).depositAmount.isSome = true := by
  have h3 : jsNanOrNonpos (NumInput.num t).parsed = true := by
    simp [jsNanOrNonpos, NumInput.parsed, htbad]
  rcases hdbad with hd1 | hd2
  · have h4 : jsNanOrNeg (NumInput.num dep).parsed = true := by
      simp [jsNanOrNeg, NumInput.parsed, hd1]
    by_cases h5 : jsGT (NumInput.num dep).parsed (NumInput.num t).parsed = true
    · simp [amountFieldErrors, NumInput.truthy, h3, h4, h5]
    · simp [amountFieldErrors, NumInput.truthy, h3, h4, h5]
  · have h5 : jsGT (NumInput.num dep).parsed (NumInput.num t).parsed = true := by
      simp [jsGT, NumInput.parsed, hd2]
    by_cases h4 : jsNanOrNeg (NumInput.num dep).parsed = true
    · simp [amountFieldErrors, NumInput.truthy, h3, h4, h5]
    · simp [amountFieldErrors, NumInput.truthy, h3, h4, h5]

/-- Same property for the amount phase of the add-order screen's
`validateForm`. -/
theorem amountFormErrors_both (base : FormErrors) (t dep : ℚ)
    (htbad : t ≤ 0) (hdbad : dep < 0 ∨ t < dep) :
    (amountFormErrors base (NumInput.num t) (NumInput.num dep)).totalAmount =
        some msgTotalPositive ∧
      (amountFormErrors base (NumInput.num t)
          (NumInput.num dep)).depositAmount.isSome = true := by
  have h3 : jsNanOrNonpos (NumInput.num t).parsed = true := by
    simp [jsNanOrNonpos, NumInput.parsed, htbad]
  rcases hdbad with hd1 | hd2
  · have h4 : jsNanOrNeg (NumInput.num dep).parsed = true := by
      simp [jsNanOrNeg, NumInput.parsed, hd1]
    by_cases h5 : jsGT (NumInput.num dep).parsed (NumInput.num t).parsed = true
    · simp [amountFormErrors, NumInput.truthy, h3, h4, h5]
    · simp [amountFormErrors, NumInput.truthy, h3, h4, h5]
  · have h5 : jsGT (NumInput.num dep).parsed (NumInput.num t).parsed = true := by
      simp [jsGT, NumInput.parsed, hd2]
    by_cases h4 : jsNanOrNeg (NumInput.num dep).parsed = true
    · simp [amountFormErrors, NumInput.truthy, h3, h4, h5]
    · simp [amountFormErrors, NumInput.truthy, h3, h4, h5]

/-- C7: when both amount fields are filled and invalid — the total parses
to a non-positive value and the deposit parses to a negative value or to
one exceeding the total — the error objects returned by
`validateOrderFields` and by the add-order screen's `validateForm` both
carry an entry for the total field and an entry for the deposit field
simultaneously. -/
theorem order_validation_reports_all_fields (f : OrderFieldsInput) (t dep : ℚ)
    (ht : f.totalAmount = NumInput.num t) (hdep : f.depositAmount = NumInput.num dep)
    (htbad : t ≤ 0) (hdbad : dep < 0 ∨ t < dep) :
    (validateOrderFields f).totalAmount.isSome = true ∧
      (validateOrderFields f).depositAmount.isSome = true ∧
      (validateForm f.serialNumber f.customerName f.customerPhone f.totalAmount
          f.depositAmount).totalAmount.isSome = true ∧
      (validateForm f.serialNumber f.customerName f.customerPhone f.totalAmount
          f.depositAmount).depositAmount.isSome = true := by
  have h1 := amountFieldErrors_both (formPhoneErrors f) t dep htbad hdbad
  have h2 := amountFormErrors_both
    (requiredAndPhoneErrors f.serialNumber f.customerName f.customerPhone
      (NumInput.num t)) t dep htbad hdbad
  simp only [validateOrderFields, validateForm, ht, hdep]
  exact ⟨by rw [h1.1]; rfl, h1.2, by rw [h2.1]; rfl, h2.2⟩

/-- Concrete instantiation of the C7 theorem: total -5 with deposit 3
produces error entries for both amount fields at once. -/
theorem order_validation_reports_all_fields_w :
    (-5 : ℚ) ≤ 0 ∧ ((-5 : ℚ) < 3) ∧
      (validateOrderFields badFields).totalAmount.isSome = true ∧
      (validateOrderFields badFields).depositAmount.isSome = true :=
  ⟨by norm_num, by norm_num,
    (order_validation_reports_all_fields badFields (-5) 3 rfl rfl (by norm_num)
      (Or.inr (by norm_num))).1,
    (order_validation_reports_all_fields badFields (-5) 3 rfl rfl (by norm_num)
      (Or.inr (by norm_num))).2.1⟩

/-- Concrete instantiation of the C5 theorem on a pending and a stitched
sample order. -/
theorem role_gated_transitions_w :
    sampleOrder.status = OrderStatus.pending ∧
      stitchedOrder.status = OrderStatus.stitched ∧
      attemptStatusUpdate Role.karigar "t1" OrderStatus.stitched sampleOrder =
        Except.ok (updateOrderStatus "t1" OrderStatus.stitched sampleOrder) ∧
      attemptStatusUpdate Role.karigar "t2" OrderStatus.delivered stitchedOrder =
        Except.error UpdateDenied.forbidden :=
  ⟨rfl, rfl,
    (role_gated_transitions sampleOrder stitchedOrder "t1" "t2" rfl rfl).1,
    (role_gated_transitions sampleOrder stitchedOrder "t1" "t2" rfl rfl).2.2.1⟩

end Rayyan
